import Mathlib

set_option autoImplicit false

namespace PackageCheck

/-! Shallow embedding of the source-resolution and diagnostic-aggregation engine of
the package checker: `src/world.rs` (path resolution, slot cache, `today`),
`src/check/diagnostics.rs` (diagnostic sets and `extend`), `src/cli.rs` (the
codespan `Files` implementation giving line/column mapping) and `src/github.rs`
(`diagnostic_to_annotation`). Physical paths are modelled as their component lists,
byte buffers as `List Nat` of byte values, and the external filesystem / network
effects (`read`, `prepare_package`) as explicit arguments. -/

/-- A package reference (`typst::syntax::package::PackageSpec`). The semantic version
is kept in its rendered string form, since the code only ever uses
`spec.version.to_string()` for path building and name comparison. The first field is
called `ns` because `namespace` is a Lean keyword. -/
structure PackageSpec where
  ns : String
  name : String
  version : String
deriving DecidableEq, Repr

/-- One component of a `typst::syntax::VirtualPath`: a normal file or directory name,
or a parent-directory step (`..`). Root, `.` and platform prefix components never
survive `VirtualPath::new`, so they are not represented. -/
inductive VComp where
  | up
  | name (s : String)
deriving DecidableEq, Repr

/-- One folding step of `VirtualPath::new`: normal components are pushed, `..` pops a
previous normal component when there is one and is kept otherwise. -/
def vnewStep (out : List VComp) (c : VComp) : List VComp :=
  match c with
  | .up =>
    match out.getLast? with
    | some (.name _) => out.dropLast
    | _ => out ++ [.up]
  | .name s => out ++ [.name s]

/-- `typst::syntax::VirtualPath::new`: normalization of a component list. -/
def vnew (cs : List VComp) : List VComp :=
  cs.foldl vnewStep []

/-- `typst::syntax::FileId`: an optional package reference plus a virtual path. -/
structure FileId where
  package : Option PackageSpec
  vpath : List VComp
deriving DecidableEq, Repr

/-- Loop of `VirtualPath::resolve`: starting from the root, push normal components and
pop one component per `..`, failing as soon as a pop would leave fewer components than
the root has. -/
def resolveGo (rootLen : Nat) : List String → List VComp → Option (List String)
  | out, [] => some out
  | out, .up :: cs =>
    let out1 := out.dropLast
    if out1.length < rootLen then none else resolveGo rootLen out1 cs
  | out, .name s :: cs => resolveGo rootLen (out ++ [s]) cs

/-- `typst::syntax::VirtualPath::resolve`: join the virtual path onto `root`;
`none` when a `..` would escape the root. -/
def resolvePath (root : List String) (v : List VComp) : Option (List String) :=
  resolveGo root.length root v

/-- `std::path::Path::strip_prefix`, on component lists. -/
def stripPre (root p : List String) : Option (List String) :=
  if root.isPrefixOf p then some (p.drop root.length) else none

/-- `typst::diag::FileError`, restricted to the variants this crate can produce. -/
inductive FileError where
  | notFound (p : List String)
  | accessDenied
  | isDirectory
  | invalidUtf8
  | other (msg : Option String)
deriving DecidableEq, Repr

/-- `typst::diag::PackageError`, the error type of `prepare_package`. -/
inductive PackageError where
  | notFound (spec : PackageSpec)
  | networkFailed (msg : Option String)
  | malformedArchive (msg : Option String)
deriving DecidableEq, Repr

/-- The message of the exclusion error produced by `system_path`'s `exclude` closure. -/
def excludedMsg : String := "This file exists but is excluded from your package."

/-- The `exclude` closure inside `system_path` (world.rs, lines 282-295): when the
resolved path lies under the project root and its root-relative form matches the
exclusion filter, the result is replaced by the exclusion error; errors, and paths not
under the project root, pass through unchanged. The `ignore` crate's compiled
`Override` is modelled as its ignore predicate on relative component paths. -/
def excludeApply (projectRoot : List String) (excluded : List String → Bool)
    (file : Except FileError (List String)) : Except FileError (List String) :=
  match file with
  | .ok f =>
    match stripPre projectRoot f with
    | some rel => if excluded rel then .error (.other (some excludedMsg)) else .ok f
    | none => .ok f
  | .error e => .error e

/-- `expect_parents` (world.rs, lines 329-343): walk up from `dir`, requiring at each
step that the parent directory's name equals the next expected name, and return the
last parent reached. `Path::canonicalize` is modelled as the identity: project roots
are taken to be already-canonical paths of existing directories, which is the case all
claims are about; a failing canonicalize only makes the walk fail on more inputs. -/
def expectParents : List String → List String → Option (List String)
  | dir, [] => some dir
  | dir, expected :: rest =>
    if dir.isEmpty then none
    else
      let par := dir.dropLast
      if par.getLast? = some expected then expectParents par rest else none

/-- Outcome of `system_path`: a resolved path, a `FileError`, or a panic.
`panicked` models the `.unwrap()` applied to the `prepare_package` result
(world.rs, line 321). -/
inductive SysResult where
  | ok (p : List String)
  | err (e : FileError)
  | panicked
deriving DecidableEq, Repr

/-- Lift an error-or-path value into a `SysResult`. -/
def SysResult.ofExcept : Except FileError (List String) → SysResult
  | .ok p => .ok p
  | .error e => .err e

/-- The resolve-then-exclude tail shared by the branches of `system_path`:
`exclude(id.vpath().resolve(&root).ok_or(FileError::AccessDenied))`. -/
def resolveExclude (projectRoot : List String) (excluded : List String → Bool)
    (base : List String) (v : List VComp) : Except FileError (List String) :=
  excludeApply projectRoot excluded
    (match resolvePath base v with
     | some p => .ok p
     | none => .error .accessDenied)

/-- `system_path` (world.rs, lines 276-326). `prepare_package` is abstracted as the
argument `prep`, since its behaviour depends on the on-disk caches and the network;
an error from it hits the `.unwrap()` and is modelled as `SysResult.panicked`. -/
def systemPath (packageOverride : Option (PackageSpec × List String))
    (projectRoot : List String) (excluded : List String → Bool)
    (prep : PackageSpec → Except PackageError (List String)) (id : FileId) : SysResult :=
  match id.package with
  | none => .ofExcept (resolveExclude projectRoot excluded projectRoot id.vpath)
  | some spec =>
    let hit : Option (List String) :=
      match packageOverride with
      | some (ospec, odir) => if ospec = spec then some odir else none
      | none => none
    match hit with
    | some odir => .ofExcept (resolveExclude projectRoot excluded odir id.vpath)
    | none =>
      match expectParents projectRoot [spec.version, spec.name, spec.ns] with
      | some packageRoot =>
        .ofExcept (resolveExclude projectRoot excluded
          (packageRoot ++ [spec.ns, spec.name, spec.version]) id.vpath)
      | none =>
        match prep spec with
        | .ok packageRoot =>
          .ofExcept (resolveExclude projectRoot excluded packageRoot id.vpath)
        | .error _ => .panicked

/-- Whether `system_path` reaches the `prepare_package` call: a package id with no
matching override and a failing `expect_parents` walk. Mirrors the branch structure of
`systemPath`. -/
def invokesProvisioner (packageOverride : Option (PackageSpec × List String))
    (projectRoot : List String) (id : FileId) : Bool :=
  match id.package with
  | none => false
  | some spec =>
    match packageOverride with
    | some (ospec, _) =>
      if ospec = spec then false
      else (expectParents projectRoot [spec.version, spec.name, spec.ns]).isNone
    | none => (expectParents projectRoot [spec.version, spec.name, spec.ns]).isNone

/-- `codespan_reporting::diagnostic::Severity`. -/
inductive Severity where
  | bug
  | error
  | warning
  | note
  | help
deriving DecidableEq, Repr

/-- `codespan_reporting::diagnostic::LabelStyle`. -/
inductive LabelStyle where
  | primary
  | secondary
deriving DecidableEq, Repr

/-- `codespan_reporting::diagnostic::Label<FileId>`. -/
structure Label where
  style : LabelStyle
  fileId : FileId
  rangeStart : Nat
  rangeEnd : Nat
  message : String
deriving DecidableEq, Repr

instance : Inhabited Label :=
  ⟨{ style := .primary, fileId := { package := none, vpath := [] },
     rangeStart := 0, rangeEnd := 0, message := "" }⟩

/-- `codespan_reporting::diagnostic::Diagnostic<FileId>`. -/
structure Diagnostic where
  severity : Severity
  code : Option String
  message : String
  labels : List Label
  notes : List String
deriving DecidableEq, Repr

/-- `Diagnostics` (check/diagnostics.rs): ordered warning and error sequences. -/
structure Diagnostics where
  warnings : List Diagnostic
  errors : List Diagnostic
deriving DecidableEq, Repr

/-- The `fix_labels` closure of `Diagnostics::extend` (check/diagnostics.rs, lines
61-70): for every label whose file id carries no package, replace the virtual path by
`VirtualPath::new(dir_prefix.join(vpath.as_rootless_path()))`, i.e. renormalize the
prefix components followed by the old components. -/
def fixLabels (dirPre : List VComp) (d : Diagnostic) : Diagnostic :=
  { d with
    labels := d.labels.map fun l =>
      if l.fileId.package = none then
        { l with fileId := { package := none, vpath := vnew (dirPre ++ l.fileId.vpath) } }
      else l }

/-- `Diagnostics::extend` (check/diagnostics.rs, lines 60-77): relabel `other`'s
diagnostics in place, then append its errors to the errors and its warnings to the
warnings. -/
def Diagnostics.extend (self other : Diagnostics) (dirPre : List VComp) : Diagnostics :=
  { errors := self.errors ++ other.errors.map (fixLabels dirPre),
    warnings := self.warnings ++ other.warnings.map (fixLabels dirPre) }

/-- A loaded `typst::syntax::Source`: the file id plus its text, kept as UTF-8 bytes
so that the byte-offset based line and column queries can be modelled directly. -/
structure Source where
  id : FileId
  text : List Nat
deriving DecidableEq, Repr

/-- Whether a byte is a UTF-8 continuation byte. -/
def isCont (b : Nat) : Bool := 128 ≤ b && b < 192

/-- UTF-8 validation (the RFC 3629 table, as enforced by `std::str::from_utf8`). -/
def validUtf8 : List Nat → Bool
  | [] => true
  | b :: rest =>
    if b < 128 then validUtf8 rest
    else if 194 ≤ b && b ≤ 223 then
      match rest with
      | b1 :: r => isCont b1 && validUtf8 r
      | [] => false
    else if b = 224 then
      match rest with
      | b1 :: b2 :: r => (160 ≤ b1 && b1 < 192) && isCont b2 && validUtf8 r
      | _ => false
    else if (225 ≤ b && b ≤ 236) || (238 ≤ b && b ≤ 239) then
      match rest with
      | b1 :: b2 :: r => isCont b1 && isCont b2 && validUtf8 r
      | _ => false
    else if b = 237 then
      match rest with
      | b1 :: b2 :: r => (128 ≤ b1 && b1 < 160) && isCont b2 && validUtf8 r
      | _ => false
    else if b = 240 then
      match rest with
      | b1 :: b2 :: b3 :: r => (144 ≤ b1 && b1 < 192) && isCont b2 && isCont b3 && validUtf8 r
      | _ => false
    else if 241 ≤ b && b ≤ 243 then
      match rest with
      | b1 :: b2 :: b3 :: r => isCont b1 && isCont b2 && isCont b3 && validUtf8 r
      | _ => false
    else if b = 244 then
      match rest with
      | b1 :: b2 :: b3 :: r => (128 ≤ b1 && b1 < 144) && isCont b2 && isCont b3 && validUtf8 r
      | _ => false
    else false

/-- `decode_utf8` (world.rs, lines 369-374): strip one UTF-8 byte-order mark, then
validate. The decoded text is represented by its UTF-8 bytes. -/
def decodeUtf8 (buf : List Nat) : Except FileError (List Nat) :=
  let stripped := if buf.take 3 = [239, 187, 191] then buf.drop 3 else buf
  if validUtf8 stripped then .ok stripped else .error .invalidUtf8

instance {e a : Type} [DecidableEq e] [DecidableEq a] : DecidableEq (Except e a) := fun x y =>
  match x, y with
  | .ok u, .ok v =>
    if h : u = v then .isTrue (by rw [h]) else .isFalse (fun hc => h (by injection hc))
  | .ok _, .error _ => .isFalse (fun hc => Except.noConfusion hc)
  | .error _, .ok _ => .isFalse (fun hc => Except.noConfusion hc)
  | .error u, .error v =>
    if h : u = v then .isTrue (by rw [h]) else .isFalse (fun hc => h (by injection hc))

/-- `SlotCell` (world.rs, lines 222-230). `fingerprint` models `typst::util::hash128`
of the load result; the hash is taken to be collision-free, so the stored fingerprint
is the load result itself, with `none` standing for the initial value `0`, which no
load result hashes to. -/
structure SlotCell (T : Type) where
  data : Option (Except FileError T)
  fingerprint : Option (Except FileError (List Nat))
  accessed : Bool

/-- `SlotCell::new`. -/
def SlotCell.new (T : Type) : SlotCell T :=
  { data := none, fingerprint := none, accessed := false }

/-- The tail of `get_or_init` after both cached-return opportunities have been passed:
take the previous successful value, apply the processing step, store and return. -/
def SlotCell.freshStep {T : Type} (cell : SlotCell T)
    (loadResult : Except FileError (List Nat))
    (f : List Nat → Option T → Except FileError T) : SlotCell T × Except FileError T :=
  let prev : Option T :=
    match cell.data with
    | some (.ok t) => some t
    | _ => none
  let value := loadResult.bind fun data => f data prev
  ({ cell with data := some value }, value)

/-- The part of `get_or_init` that runs once the accessed-this-compilation fast path
has been passed: hash the load result, store the fingerprint, and return the old data
if the fingerprint did not change. -/
def SlotCell.loadStep {T : Type} (cell : SlotCell T)
    (loadResult : Except FileError (List Nat))
    (f : List Nat → Option T → Except FileError T) : SlotCell T × Except FileError T :=
  let fp := some loadResult
  let old := cell.fingerprint
  let cell1 := { cell with fingerprint := fp }
  if old = fp then
    match cell1.data with
    | some d => (cell1, d)
    | none => cell1.freshStep loadResult f
  else cell1.freshStep loadResult f

/-- `SlotCell::get_or_init` (world.rs, lines 243-271) as a pure state transformer.
`loadResult` is what the `load` closure returns during this call. -/
def SlotCell.getOrInit {T : Type} (cell : SlotCell T)
    (loadResult : Except FileError (List Nat))
    (f : List Nat → Option T → Except FileError T) : SlotCell T × Except FileError T :=
  let accessed0 := cell.accessed
  let cell1 := { cell with accessed := true }
  if accessed0 then
    match cell1.data with
    | some d => (cell1, d)
    | none => cell1.loadStep loadResult f
  else cell1.loadStep loadResult f

/-- The decode step of `FileSlot::source` (world.rs, lines 187-206): decode UTF-8 and
either patch the previous source (`prev.replace(text)`, which keeps its id) or create
a new one. -/
def sourceInit (id : FileId) (data : List Nat) (prev : Option Source) :
    Except FileError Source :=
  match decodeUtf8 data with
  | .error e => .error e
  | .ok text =>
    match prev with
    | some p => .ok { p with text := text }
    | none => .ok { id := id, text := text }

/-- `FileSlot::source`: run the slot cell with the outcome of `read` for this id. -/
def fileSlotSource (id : FileId) (cell : SlotCell Source)
    (readResult : Except FileError (List Nat)) : SlotCell Source × Except FileError Source :=
  cell.getOrInit readResult (sourceInit id)

/-- The 0-indexed line containing byte `k` of `t` (`typst` `byte_to_line`): the number
of newline bytes among the first `k` bytes; `none` past the end of the text. Line
breaks are modelled as `\n` only. -/
def byteToLine (t : List Nat) (k : Nat) : Option Nat :=
  if k ≤ t.length then some ((t.take k).count 10) else none

/-- Byte offsets at which the lines of `t` start. -/
def lineStarts (t : List Nat) : List Nat :=
  0 :: ((List.range t.length).filterMap fun i => if t.getD i 0 = 10 then some (i + 1) else none)

/-- `line_to_byte`: the byte offset of the start of line `l`. -/
def lineToByte (t : List Nat) (l : Nat) : Option Nat :=
  (lineStarts t)[l]?

/-- `line_to_range`: the byte range of line `l`. -/
def lineToRange (t : List Nat) (l : Nat) : Option (Nat × Nat) :=
  match lineToByte t l with
  | none => none
  | some s => some (s, (lineToByte t (l + 1)).getD t.length)

/-- `len_lines`: the number of lines of `t`. -/
def lenLines (t : List Nat) : Nat := (lineStarts t).length

/-- `byte_to_column`: the number of characters between the start of the line and byte
`k`, i.e. the 0-indexed column; `none` past the end of the text or at a byte that is
not a UTF-8 character boundary (where `str::get` fails). -/
def byteToColumn (t : List Nat) (k : Nat) : Option Nat :=
  if k ≤ t.length && (k = t.length || !isCont (t.getD k 0)) then
    some (((t.take k).reverse.takeWhile fun b => b != 10).countP fun b => !isCont b)
  else none

/-- `codespan_reporting::files::Error`, restricted to the variants produced here. -/
inductive CodespanError where
  | io (e : FileError)
  | indexTooLarge (given maxB : Nat)
  | lineTooLarge (given maxB : Nat)
  | invalidCharBoundary (given : Nat)
deriving DecidableEq, Repr

/-- The part of `SystemWorld` consumed by the coordinate mapper and the reporting
layer: the outcome of `World::source` per file id, and the per-slot line shift.
Modelled from the spec: the `virtual_line` accessor and the registration of virtual
slots (`virtual_source`), used by cli.rs and check/readme.rs, are not among the
sources under `src/`; per the spec each slot stores a `line_shift` integer, `0` for
ordinary files, and `virtual_line(id)` returns it. -/
structure WorldView where
  src : FileId → Except FileError Source
  virtualLine : FileId → Nat

/-- The `Files::source` implementation for `SystemWorld` (cli.rs, lines 104-115): an
`InvalidUtf8` lookup error is replaced by an empty source so that whole-file
diagnostics can still be reported; other errors become I/O errors. -/
def cliSource (w : WorldView) (id : FileId) : Except CodespanError Source :=
  match w.src id with
  | .ok x => .ok x
  | .error .invalidUtf8 => .ok { id := id, text := [] }
  | .error e => .error (.io e)

/-- `Files::line_index` for `SystemWorld` (cli.rs, lines 117-127): the text's own
0-indexed line plus the slot's virtual line shift. -/
def lineIndex (w : WorldView) (id : FileId) (given : Nat) : Except CodespanError Nat :=
  match cliSource w id with
  | .error e => .error e
  | .ok source =>
    match byteToLine source.text given with
    | some line => .ok (line + w.virtualLine id)
    | none => .error (.indexTooLarge given source.text.length)

/-- `Files::line_range` for `SystemWorld` (cli.rs, lines 129-139): the virtual line
shift is subtracted from the caller-supplied line before delegating. Rust's debug-mode
underflow panic for `given < shift` is outside the modelled domain; `Nat` subtraction
truncates at `0` instead. -/
def lineRange (w : WorldView) (id : FileId) (given0 : Nat) :
    Except CodespanError (Nat × Nat) :=
  match cliSource w id with
  | .error e => .error e
  | .ok source =>
    let given := given0 - w.virtualLine id
    match lineToRange source.text given with
    | some r => .ok r
    | none => .error (.lineTooLarge given (lenLines source.text))

/-- `Files::column_number` for `SystemWorld` (cli.rs, lines 141-151); the line
argument is ignored by the implementation. -/
def columnNumber (w : WorldView) (id : FileId) (line given : Nat) :
    Except CodespanError Nat :=
  match cliSource w id with
  | .error e => .error e
  | .ok source =>
    match byteToColumn source.text given with
    | some c => .ok c
    | none =>
      let maxB := source.text.length
      let _ := line
      if given ≤ maxB then .error (.invalidCharBoundary given)
      else .error (.indexTooLarge given maxB)

/-- GitHub annotation level (`AnnotationLevel` in github.rs). -/
inductive AnnotLevel where
  | warning
  | failure
deriving DecidableEq, Repr

/-- The GitHub annotation shape (github.rs), with the path kept as its component
list. -/
structure Annot where
  path : List String
  startLine : Nat
  endLine : Nat
  startColumn : Option Nat
  endColumn : Option Nat
  level : AnnotLevel
  message : String
deriving DecidableEq, Repr

/-- Render one virtual-path component the way `Path::join` on
`vpath.as_rootless_path()` sees it. -/
def VComp.render : VComp → String
  | .up => ".."
  | .name s => s

/-- The canonical registry layout directory of a package followed by a virtual path:
`packages/<namespace>/<name>/<version>/<vpath>`. -/
def canonicalJoin (pkg : PackageSpec) (v : List VComp) : List String :=
  ["packages", pkg.ns, pkg.name, pkg.version] ++ v.map VComp.render

/-- `diagnostic_to_annotation` (github.rs, lines 435-474). `package` is the package
under test, passed in by the caller of the report stage. Paths being component lists,
the `to_str()?` failure for non-UTF-8 paths cannot occur in the model. -/
def diagnosticToAnnot (w : WorldView) (package : PackageSpec) (diag : Diagnostic) :
    Option Annot :=
  match diag.labels.head? with
  | none => none
  | some label =>
    match (lineIndex w label.fileId label.rangeStart).toOption with
    | none => none
    | some startLine =>
      match (lineIndex w label.fileId label.rangeEnd).toOption with
      | none => none
      | some endLine =>
        let cols : Option Nat × Option Nat :=
          if startLine = endLine then
            ((columnNumber w label.fileId startLine label.rangeStart).toOption,
             (columnNumber w label.fileId startLine label.rangeEnd).toOption)
          else (none, none)
        some
          { path := canonicalJoin package label.fileId.vpath,
            startLine := startLine + 1,
            endLine := endLine + 1,
            startColumn := cols.1,
            endColumn := cols.2,
            level := if diag.severity = .warning then .warning else .failure,
            message := diag.message }

/-- Restatement of `diagnostic_to_annotation` that makes the shape of the result
explicit, used to state the amended C8 claim: `none` exactly when there is no primary
label or a line resolution fails; otherwise 1-indexed lines, with each column carried
independently, only for single-line spans and only when its own resolution succeeds,
and carrying the mapper's 0-indexed column value. -/
def annotSpec (w : WorldView) (package : PackageSpec) (diag : Diagnostic) :
    Option Annot :=
  match diag.labels.head? with
  | none => none
  | some label =>
    match (lineIndex w label.fileId label.rangeStart).toOption,
        (lineIndex w label.fileId label.rangeEnd).toOption with
    | some startLine, some endLine =>
      some
        { path := canonicalJoin package label.fileId.vpath,
          startLine := startLine + 1,
          endLine := endLine + 1,
          startColumn :=
            if startLine = endLine then
              (columnNumber w label.fileId startLine label.rangeStart).toOption
            else none,
          endColumn :=
            if startLine = endLine then
              (columnNumber w label.fileId startLine label.rangeEnd).toOption
            else none,
          level := if diag.severity = .warning then .warning else .failure,
          message := diag.message }
    | _, _ => none

/-- Civil-from-days (the inverse of days-from-civil): the proleptic Gregorian
`(year, month, day)` of day number `z` counted from 1970-01-01; models `chrono`'s
`year()`, `month()` and `day()` accessors on a date. -/
def civilFromDays (z0 : Int) : Int × Nat × Nat :=
  let z := z0 + 719468
  let era : Int := Int.fdiv z 146097
  let doe : Nat := (z - era * 146097).toNat
  let yoe : Nat := (doe - doe / 1460 + doe / 36524 - doe / 146096) / 365
  let y : Int := (yoe : Int) + era * 400
  let doy : Nat := doe - (365 * yoe + yoe / 4 - yoe / 100)
  let mp : Nat := (5 * doy + 2) / 153
  let d : Nat := doy - (153 * mp + 2) / 5 + 1
  let m : Nat := if mp < 10 then mp + 3 else mp - 9
  (if m ≤ 2 then y + 1 else y, m, d)

/-- `SystemWorld::today` (world.rs, lines 134-151) as a pure state transformer over
the `now` once-cell. `state` is the cell (`none` before first initialization);
`clock` is the value `Utc::now()` would produce during this call, in seconds since the
epoch; `localOff` is the fixed local-timezone offset in seconds applied when no offset
argument is given. The `i32::try_from`, `checked_mul(3600)` and
`FixedOffset::east_opt` checks are modelled exactly; calendar extraction goes through
`civilFromDays`. -/
def todayImpl (localOff : Int) (state : Option Int) (clock : Int) (offset : Option Int) :
    Option Int × Option (Int × Nat × Nat) :=
  let now := state.getD clock
  let state1 := some now
  let result : Option (Int × Nat × Nat) :=
    match offset with
    | none => some (civilFromDays (Int.fdiv (now + localOff) 86400))
    | some hours =>
      if hours < -(2 ^ 31) || 2 ^ 31 - 1 < hours then none
      else
        let seconds := hours * 3600
        if seconds < -(2 ^ 31) || 2 ^ 31 - 1 < seconds then none
        else if -86400 < seconds && seconds < 86400 then
          some (civilFromDays (Int.fdiv (now + seconds) 86400))
        else none
  (state1, result)

/-! Concrete instances used by the counterexamples and witnesses below. Each claim
has its own data, so they are intentionally not shared. -/

/-- C1 data: the package under test. -/
def pkgAlpha : PackageSpec := ⟨"preview", "alpha", "1.0.0"⟩

/-- C1 data: a different package, referenced by a diagnostic's file id. -/
def pkgBeta : PackageSpec := ⟨"preview", "beta", "2.0.0"⟩

/-- C1 data: a file id carrying `pkgBeta`. -/
def fidBeta : FileId := ⟨some pkgBeta, [.name "lib.typ"]⟩

/-- C1 data: a world whose only file is `fidBeta` with text `ab`. -/
def worldBeta : WorldView :=
  ⟨fun id => if id = fidBeta then .ok ⟨fidBeta, [97, 98]⟩ else .error (.notFound []),
   fun _ => 0⟩

/-- C1 data: the primary label of the diagnostic. -/
def labelBeta : Label := ⟨.primary, fidBeta, 0, 1, ""⟩

/-- C1 data: a warning diagnostic whose span lives in `pkgBeta`. -/
def diagBeta : Diagnostic := ⟨.warning, none, "unused import", [labelBeta], []⟩

/-- C1 data: the annotation the code actually produces for `diagBeta`. -/
def annotBeta : Annot :=
  ⟨["packages", "preview", "alpha", "1.0.0", "lib.typ"], 1, 1, some 0, some 1,
   .warning, "unused import"⟩

/-- C2 data: a package carried by the primary label of the mixed diagnostic. -/
def pkgMix : PackageSpec := ⟨"preview", "mix", "3.0.0"⟩

/-- C2 data: primary label carrying a package reference. -/
def labelPkgA : Label := ⟨.primary, ⟨some pkgMix, [.name "a.typ"]⟩, 0, 1, ""⟩

/-- C2 data: secondary label with no package reference. -/
def labelLocalB : Label := ⟨.secondary, ⟨none, [.name "b.typ"]⟩, 0, 1, ""⟩

/-- C2 data: a diagnostic whose primary span carries a package but whose secondary
label does not. -/
def diagMixed : Diagnostic := ⟨.error, none, "mixed", [labelPkgA, labelLocalB], []⟩

/-- C2 data: a diagnostic set holding only `diagMixed` as an error. -/
def setMixed : Diagnostics := ⟨[], [diagMixed]⟩

/-- C3 data: a project root laid out canonically as
`<root>/<namespace>/<name>/<version>`. -/
def rootCanonical : List String := ["checkout", "packages", "preview", "foo", "1.0.0"]

/-- C3 data: the very package checked out at `rootCanonical`. -/
def pkgFoo : PackageSpec := ⟨"preview", "foo", "1.0.0"⟩

/-- C3 data: a file id referencing the package under check by its qualified name. -/
def fidFoo : FileId := ⟨some pkgFoo, [.name "lib.typ"]⟩

/-- C4 data: the override package. -/
def pkgTpl : PackageSpec := ⟨"preview", "tpl", "0.1.0"⟩

/-- C4 data: an override directory nested under the project root `pkg`. -/
def overrideNested : Option (PackageSpec × List String) := some (pkgTpl, ["pkg", "tpl"])

/-- C4 data: an exclusion filter matching the override file's root-relative path. -/
def exclTpl : List String → Bool := fun l => l == ["tpl", "a.typ"]

/-- C4 data: a file id resolved through the override. -/
def fidTplA : FileId := ⟨some pkgTpl, [.name "a.typ"]⟩

/-- C4 witness data: another override package. -/
def pkgTpl2 : PackageSpec := ⟨"preview", "card", "0.2.0"⟩

/-- C4 witness data: file id resolved through the second override. -/
def fidMain2 : FileId := ⟨some pkgTpl2, [.name "main.typ"]⟩

/-- C4 witness data: exclusion filter matching the override file. -/
def exclMain2 : List String → Bool := fun l => l == ["template", "main.typ"]

/-- C5 data: the cached file id. -/
def fidCache : FileId := ⟨none, [.name "main.typ"]⟩

/-- C6 data: project root. -/
def rootSec : List String := ["pkg"]

/-- C6 data: exclusion filter matching `secret.typ`. -/
def exclSec : List String → Bool := fun l => l == ["secret.typ"]

/-- C6 data: a project-local file id whose path is excluded. -/
def fidSec : FileId := ⟨none, [.name "secret.typ"]⟩

/-- C7 data: a project root with no canonical ancestor names. -/
def rootProj : List String := ["work", "proj"]

/-- C7 data: a package in a namespace that cannot be downloaded. -/
def pkgLocal : PackageSpec := ⟨"local", "mypkg", "0.1.0"⟩

/-- C7 data: a file id referencing `pkgLocal`. -/
def fidLocal : FileId := ⟨some pkgLocal, [.name "lib.typ"]⟩

/-- C8 data: the package under test. -/
def pkgAccent : PackageSpec := ⟨"preview", "accent", "1.0.0"⟩

/-- C8 data: a project-local file id. -/
def fidAccent : FileId := ⟨none, [.name "README.md"]⟩

/-- C8 data: a world whose only file contains the two-byte character `é`. -/
def worldAccent : WorldView :=
  ⟨fun id => if id = fidAccent then .ok ⟨fidAccent, [195, 169]⟩ else .error (.notFound []),
   fun _ => 0⟩

/-- C8 data: a single-line diagnostic whose end offset splits the character. -/
def diagAccent : Diagnostic := ⟨.warning, none, "syntax error", [⟨.primary, fidAccent, 0, 1, ""⟩], []⟩

/-- C9 data: a virtual slot's file id. -/
def fidShift : FileId := ⟨none, [.name "sample.typ"]⟩

/-- C9 data: a world with one virtual slot, text `#c\nx`, line shift 41. -/
def worldShift : WorldView :=
  ⟨fun id => if id = fidShift then .ok ⟨fidShift, [35, 99, 10, 120]⟩ else .error (.notFound []),
   fun _ => 41⟩

/-- C9 data: the package under test for the shifted annotation. -/
def pkgShift : PackageSpec := ⟨"preview", "shifted", "1.0.0"⟩

/-- C9 data: a diagnostic on local line 1 (bytes 0..1) of the virtual slot. -/
def diagShift : Diagnostic := ⟨.warning, none, "cond", [⟨.primary, fidShift, 0, 1, ""⟩], []⟩

/-! Helper lemmas. -/

/-- The resolve loop keeps the root as a prefix of the accumulator: pops are rejected
as soon as they would cut into the root. -/
theorem resolveGo_pre (root : List String) :
    ∀ (v : List VComp) (out p : List String),
      root <+: out → resolveGo root.length out v = some p → root <+: p := by
  intro v
  induction v with
  | nil =>
    intro out p hpre h
    simp only [resolveGo, Option.some.injEq] at h
    exact h ▸ hpre
  | cons c cs ih =>
    intro out p hpre h
    cases c with
    | up =>
      simp only [resolveGo] at h
      by_cases hlt : out.dropLast.length < root.length
      · rw [if_pos hlt] at h
        cases h
      · rw [if_neg hlt] at h
        refine ih out.dropLast p ?_ h
        obtain ⟨t, rfl⟩ := hpre
        rcases eq_or_ne t [] with rfl | hne
        · rcases eq_or_ne root [] with rfl | hr
          · simp
          · exfalso
            apply hlt
            simp only [List.append_nil]
            rw [List.length_dropLast]
            exact Nat.sub_lt (List.length_pos.mpr hr) one_pos
        · rw [List.dropLast_append_of_ne_nil root hne]
          exact ⟨t.dropLast, rfl⟩
    | name s =>
      simp only [resolveGo] at h
      refine ih (out ++ [s]) p ?_ h
      obtain ⟨t, rfl⟩ := hpre
      exact ⟨t ++ [s], by simp⟩

/-- A successfully resolved virtual path starts with the root it was resolved
against. -/
theorem resolvePath_pre (root : List String) (v : List VComp) (p : List String)
    (h : resolvePath root v = some p) : root <+: p :=
  resolveGo_pre root v root p (List.prefix_refl root) h

/-! Claim theorems. -/

/-- Claim C3 (code bug): for a project root checked out under the canonical layout
`<root>/<namespace>/<name>/<version>` and a file id referencing that very package, the
ancestor-name walk of `expect_parents` fails — it compares the parent chain's names
(here `foo`, `preview`, `packages`) against `(version, name, namespace)` — so
resolution delegates to the package provisioner instead of resolving within the local
checkout, and a provisioner failure then panics through the `.unwrap()`. -/
theorem c3_canonical_selfref_delegates :
    expectParents rootCanonical ["1.0.0", "foo", "preview"] = none ∧
    invokesProvisioner none rootCanonical fidFoo = true ∧
    systemPath none rootCanonical (fun _ => false) (fun s => .error (.notFound s)) fidFoo =
      .panicked := by
  refine ⟨by decide, by decide, by decide⟩

/-- Claim C7 (code bug): a package-provisioner failure reached after the ancestor-name
walk fails is not returned as an error value: `system_path` unwraps the
`prepare_package` result and panics. -/
theorem c7_provisioner_failure_panics :
    systemPath none rootProj (fun _ => false) (fun s => .error (.notFound s)) fidLocal =
      .panicked := by
  decide

/-- Claim C4, counterexample: with a package override whose directory lies nested
under the project root, resolution of an override-matching file id does not skip the
exclusion filter — the resolved path `pkg/tpl/a.typ` matches the filter relative to
the root `pkg` and resolution fails with the exclusion error instead of returning the
path. -/
theorem c4_counterexample :
    systemPath overrideNested ["pkg"] exclTpl (fun s => .error (.notFound s)) fidTplA =
      .err (.other (some excludedMsg)) ∧
    SysResult.err (.other (some excludedMsg)) ≠ SysResult.ok ["pkg", "tpl", "a.typ"] := by
  exact ⟨by decide, by decide⟩

/-- Claim C4, amended: when the context's override reference equals the id's
reference, resolution joins the id's virtual path onto the override directory and then
applies the same exclude-if-under-project-root filter as ordinary resolution (so
override content nested under the project root is subject to exclusion, while override
content outside it is not), and the package provisioner plays no part in the
outcome. -/
theorem c4_amended (pov : Option (PackageSpec × List String)) (root : List String)
    (excl : List String → Bool)
    (prep1 prep2 : PackageSpec → Except PackageError (List String))
    (spec : PackageSpec) (odir : List String) (id : FileId)
    (hov : pov = some (spec, odir)) (hid : id.package = some spec) :
    systemPath pov root excl prep1 id =
      .ofExcept (resolveExclude root excl odir id.vpath) ∧
    systemPath pov root excl prep1 id = systemPath pov root excl prep2 id := by
  subst hov
  constructor <;> simp [systemPath, hid]

/-- Claim C4, witness for the amended theorem: a concrete override nested under the
project root whose file matches an exclude rule resolves to the exclusion error. -/
theorem c4_amended_witness :
    systemPath (some (pkgTpl2, ["proj", "template"])) ["proj"] exclMain2
      (fun s => .error (.notFound s)) fidMain2 = .err (.other (some excludedMsg)) :=
  ((c4_amended (some (pkgTpl2, ["proj", "template"])) ["proj"] exclMain2
      (fun s => .error (.notFound s)) (fun s => .error (.notFound s))
      pkgTpl2 ["proj", "template"] fidMain2 rfl rfl).1).trans (by decide)

/-- Claim C6 (confirmed): a project-local file id whose resolved path matches the
exclusion filter relative to the project root fails with the dedicated exclusion
error, which is distinct from `NotFound`, and resolution never yields the path. -/
theorem c6_exclusion_enforced (pov : Option (PackageSpec × List String))
    (root : List String) (excl : List String → Bool)
    (prep : PackageSpec → Except PackageError (List String))
    (id : FileId) (p : List String)
    (hpkg : id.package = none) (hres : resolvePath root id.vpath = some p)
    (hexcl : excl (p.drop root.length) = true) :
    systemPath pov root excl prep id = .err (.other (some excludedMsg)) ∧
    (∀ q, systemPath pov root excl prep id ≠ .err (.notFound q)) ∧
    (∀ f, systemPath pov root excl prep id ≠ .ok f) := by
  have hpre : root <+: p := resolvePath_pre root id.vpath p hres
  have hb : root.isPrefixOf p := List.isPrefixOf_iff_prefix.mpr hpre
  have hmain : systemPath pov root excl prep id = .err (.other (some excludedMsg)) := by
    simp [systemPath, hpkg, resolveExclude, hres, excludeApply, stripPre, hb, hexcl,
      SysResult.ofExcept]
  refine ⟨hmain, fun q hq => ?_, fun f hf => ?_⟩
  · rw [hmain] at hq
    injection hq with h2
    exact FileError.noConfusion h2
  · rw [hmain] at hf
    exact SysResult.noConfusion hf

/-- Claim C6, witness: a concrete excluded file under the project root resolves to the
exclusion error. -/
theorem c6_exclusion_enforced_witness :
    systemPath none rootSec exclSec (fun s => .error (.notFound s)) fidSec =
      .err (.other (some excludedMsg)) :=
  (c6_exclusion_enforced none rootSec exclSec (fun s => .error (.notFound s)) fidSec
      ["pkg", "secret.typ"] rfl rfl rfl).1

/-- Claim C2, counterexample: `extend` rewrites per label, not per diagnostic. A
diagnostic whose primary span carries a package reference but whose secondary label
does not is not appended unchanged: its secondary label's path is rewritten under the
prefix. -/
theorem c2_counterexample :
    (diagMixed.labels.head?.map fun l => l.fileId.package) = some (some pkgMix) ∧
    (Diagnostics.extend ⟨[], []⟩ setMixed [VComp.name "tpl"]).errors ≠ [diagMixed] ∧
    (Diagnostics.extend ⟨[], []⟩ setMixed [VComp.name "tpl"]).errors =
      [{ diagMixed with
          labels := [labelPkgA,
            { labelLocalB with
                fileId := ⟨none, [VComp.name "tpl", VComp.name "b.typ"]⟩ }] }] := by
  refine ⟨by decide, by decide, by decide⟩

/-- Claim C2, amended: `extend` appends `other`'s errors to the errors and its
warnings to the warnings in insertion order, after rewriting them label by label:
each label whose file id carries no package reference gets the prefix joined in front
of its virtual path (renormalized), and each label carrying a package reference is
left untouched; severity, message, code and notes are never changed. -/
theorem c2_amended (s o : Diagnostics) (pre : List VComp) :
    (Diagnostics.extend s o pre).errors = s.errors ++ o.errors.map (fixLabels pre) ∧
    (Diagnostics.extend s o pre).warnings = s.warnings ++ o.warnings.map (fixLabels pre) ∧
    (∀ d : Diagnostic, ∀ i : Nat,
      ((fixLabels pre d).labels)[i]? =
        (d.labels[i]?).map fun l =>
          if l.fileId.package = none then
            { l with fileId := { package := none, vpath := vnew (pre ++ l.fileId.vpath) } }
          else l) ∧
    (∀ d : Diagnostic,
      (fixLabels pre d).severity = d.severity ∧
      (fixLabels pre d).message = d.message ∧
      (fixLabels pre d).code = d.code ∧
      (fixLabels pre d).notes = d.notes) := by
  refine ⟨rfl, rfl, fun d i => ?_, fun d => ⟨rfl, rfl, rfl, rfl⟩⟩
  simp [fixLabels, List.getElem?_map]

/-- Claim C5, counterexample: with the backing bytes changed from `a` to `b` between
two source reads of the same slot, the second call silently returns the first call's
decoded content — the accessed flag is set by the first call and never cleared, so the
new bytes are never even fingerprinted. -/
theorem c5_counterexample :
    (fileSlotSource fidCache
        (fileSlotSource fidCache (SlotCell.new Source) (.ok [97])).1 (.ok [98])).2 =
      .ok { id := fidCache, text := [97] } ∧
    (Except.ok { id := fidCache, text := [97] } : Except FileError Source) ≠
      .ok { id := fidCache, text := [98] } := by
  refine ⟨rfl, by decide⟩

/-- Claim C5, amended: within one world the second source read of a slot returns
exactly the first read's result, whatever the backing bytes have become: the
fingerprint comparison can only run on a slot not yet marked accessed, and nothing in
the crate ever clears the accessed flag. -/
theorem c5_amended (id : FileId) (r1 r2 : Except FileError (List Nat)) :
    (fileSlotSource id (fileSlotSource id (SlotCell.new Source) r1).1 r2).2 =
      (fileSlotSource id (SlotCell.new Source) r1).2 := by
  simp [fileSlotSource, SlotCell.getOrInit, SlotCell.loadStep, SlotCell.freshStep,
    SlotCell.new]

/-- Claim C1, counterexample: for a diagnostic whose span's file id carries the
package reference `pkgBeta`, `diagnostic_to_annotation` builds the path from the
package under test (`pkgAlpha`, the `package` argument), not from `pkgBeta`'s
canonical layout. -/
theorem c1_counterexample :
    (diagnosticToAnnot worldBeta pkgAlpha diagBeta).map (fun a => a.path) =
      some ["packages", "preview", "alpha", "1.0.0", "lib.typ"] ∧
    (["packages", "preview", "alpha", "1.0.0", "lib.typ"] : List String) ≠
      canonicalJoin pkgBeta [VComp.name "lib.typ"] := by
  refine ⟨by decide, by decide⟩

/-- Claim C1, amended: every annotation produced by `diagnostic_to_annotation` has its
path built by joining the canonical layout of the package under test (the `package`
argument) with the primary label's virtual path, regardless of any package reference
embedded in the diagnostic's file id — in particular also for diagnostics that arrived
through `merge()`. -/
theorem c1_amended (w : WorldView) (pkg : PackageSpec) (d : Diagnostic) (a : Annot)
    (l : Label) (h : diagnosticToAnnot w pkg d = some a) (hl : d.labels.head? = some l) :
    a.path = canonicalJoin pkg l.fileId.vpath := by
  simp only [diagnosticToAnnot, hl] at h
  rcases hs : (lineIndex w l.fileId l.rangeStart).toOption with _ | sl
  · rw [hs] at h
    cases h
  · rw [hs] at h
    rcases he : (lineIndex w l.fileId l.rangeEnd).toOption with _ | el
    · rw [he] at h
      cases h
    · rw [he] at h
      injection h with h
      rw [← h]

/-- Claim C1, witness for the amended theorem: at the concrete inputs the produced
annotation's path is the package-under-test layout joined with the label's path. -/
theorem c1_amended_witness :
    annotBeta.path = canonicalJoin pkgAlpha labelBeta.fileId.vpath :=
  c1_amended worldBeta pkgAlpha diagBeta annotBeta labelBeta (by decide) (by decide)

/-- Claim C8, counterexample: a single-line diagnostic whose end offset falls inside a
two-byte character yields an annotation with `start line = end line` but with the end
column absent, and its start column is the mapper's 0-indexed value `0`, not a
1-indexed column. -/
theorem c8_counterexample :
    (diagnosticToAnnot worldAccent pkgAccent diagAccent).map
        (fun a => (a.startLine, a.endLine, a.startColumn, a.endColumn)) =
      some (1, 1, some 0, none) := by
  decide

/-- Claim C8, amended: `diagnostic_to_annotation` returns `none` exactly when the
diagnostic has no primary label or resolving one of its span's lines fails; otherwise
the annotation carries 1-indexed start/end lines, and for spans whose start and end
fall on the same line each column is resolved independently and carried only when its
own resolution succeeds (it is absent e.g. at a byte that is not a character
boundary), carrying the text's 0-indexed column value; multi-line spans carry no
columns. -/
theorem c8_amended (w : WorldView) (pkg : PackageSpec) (d : Diagnostic) :
    diagnosticToAnnot w pkg d = annotSpec w pkg d := by
  unfold diagnosticToAnnot annotSpec
  cases hh : d.labels.head? with
  | none => rfl
  | some label =>
    rcases hs : (lineIndex w label.fileId label.rangeStart).toOption with _ | sl
    · simp only [hs]
    · rcases he : (lineIndex w label.fileId label.rangeEnd).toOption with _ | el
      · simp only [hs, he]
      · simp only [hs, he]
        by_cases heq : sl = el
        · simp [heq]
        · simp [heq]

/-- Claim C9 (confirmed; the `virtual_line` accessor is modelled from the spec): for a
slot with line shift `s`, `line_index` returns the text's own 0-indexed line plus `s`,
and `line_range` subtracts `s` from the caller-supplied line before translating it
back to a byte range. -/
theorem c9_line_shift (w : WorldView) (id : FileId) (t : Source) (b l given : Nat)
    (hsrc : w.src id = .ok t) (hline : byteToLine t.text b = some l)
    (_hge : w.virtualLine id ≤ given) :
    lineIndex w id b = .ok (l + w.virtualLine id) ∧
    lineRange w id given =
      (match lineToRange t.text (given - w.virtualLine id) with
       | some r => Except.ok r
       | none =>
         Except.error (.lineTooLarge (given - w.virtualLine id) (lenLines t.text))) := by
  constructor
  · simp [lineIndex, cliSource, hsrc, hline]
  · simp [lineRange, cliSource, hsrc]

/-- Claim C9, witness: a virtual slot registered with line shift 41 and a condition on
its own first line reports host line index 41, i.e. 1-indexed host line 42 in the
annotation; and `line_range` at caller line 41 maps back to the slot's first line's
byte range. -/
theorem c9_line_shift_witness :
    lineIndex worldShift fidShift 0 = .ok 41 ∧
    lineRange worldShift fidShift 41 = .ok (0, 3) ∧
    (diagnosticToAnnot worldShift pkgShift diagShift).map
        (fun a => (a.startLine, a.endLine)) = some (42, 42) := by
  have h := c9_line_shift worldShift fidShift ⟨fidShift, [35, 99, 10, 120]⟩ 0 0 41
    (by decide) (by decide) (by decide)
  exact ⟨h.1.trans (by decide), h.2.trans (by decide), by decide⟩

/-- Claim C10 (confirmed): the first `today` call fixes the instant in the `now`
once-cell, and any two calls with the same offset argument on the same world return
the same result, whatever wall-clock values the calls observe. -/
theorem c10_today_fixed (localOff : Int) (s : Option Int) (clock1 clock2 : Int)
    (offset : Option Int) :
    (todayImpl localOff (todayImpl localOff s clock1 offset).1 clock2 offset).2 =
      (todayImpl localOff s clock1 offset).2 ∧
    (todayImpl localOff s clock1 offset).1 = some (s.getD clock1) := by
  cases s <;> simp [todayImpl]

end PackageCheck
